import Mathlib

/-!
Verification of the AI Career Companion application (`src/app.py`).

The Python program is shallowly embedded: external effects (PDF/DOCX/TXT
parsing libraries, the remote grammar API, the generative-model endpoint)
are abstracted as explicit inputs describing their outcomes, and Python
exceptions are modelled with `Except`.  Each definition mirrors one Python
function of `app.py`.
-/

namespace CareerCompanion

/-! ## Text extraction (`extract_text_from_pdf`, `extract_text_from_docx`,
`extract_text_from_file`) -/

/-- Outcome of `page.extract_text()` for one PDF page: either the extracted
string, or an exception raised during extraction. -/
abbrev PageOutcome := Except Unit String

/-- Outcome of `PdfReader(pdf_path)` followed by iterating `reader.pages`:
either an exception while opening, or the list of per-page outcomes in page
order. -/
abbrev PdfOutcome := Except Unit (List PageOutcome)

/-- The loop `for page in reader.pages: text += page.extract_text()` executed
inside the `try` block: an exception on any page jumps to the `except`
handler, so accumulation stops at the first failing page and the text
gathered so far is kept. -/
def pdfLoop : List PageOutcome → String → String
  | [], acc => acc
  | .ok s :: rest, acc => pdfLoop rest (acc ++ s)
  | .error _ :: _, acc => acc

/-- `extract_text_from_pdf` (app.py lines 14-23): `text = ""`, then a `try`
around reading the file and concatenating page texts; every exception is
caught and logged, and the accumulated `text` is returned. -/
def extract_text_from_pdf (pdf : PdfOutcome) : String :=
  match pdf with
  | .error _ => ""
  | .ok pages => pdfLoop pages ""

/-- Outcome of `docx.Document(docx_path)`: either an exception while opening,
or the list of paragraph texts (`para.text`) in document order. -/
abbrev DocxOutcome := Except Unit (List String)

/-- `extract_text_from_docx` (app.py lines 25-34): `text = ""`, then a `try`
appending `para.text + "\n"` for each paragraph; every exception is caught
and logged, and the accumulated `text` is returned. -/
def extract_text_from_docx (doc : DocxOutcome) : String :=
  match doc with
  | .error _ => ""
  | .ok paras => paras.foldl (fun acc p => acc ++ p ++ "\n") ""

/-- Outcome of the TXT branch reading `file_path` in text mode as UTF-8:
either the decoded string, or an exception (missing file, bytes not
decodable as UTF-8).  This branch of `extract_text_from_file` has no
`try`/`except`, so such an exception propagates to the caller. -/
abbrev TxtOutcome := Except Unit String

/-- Python `str.lower()` over the character sequence (the extensions the app
compares against are ASCII, where Python and `Char.toLower` agree). -/
def pyLower (s : String) : String := ⟨s.data.map Char.toLower⟩

/-- Python `s.endswith(suffix)`: suffix test on the character sequence. -/
def pyEndsWith (s suffix : String) : Bool := suffix.data.isSuffixOf s.data

/-- The environment a path denotes: the outcome each of the three extraction
routines would have at that path. -/
structure FileEnv where
  pdfRead : PdfOutcome
  docxRead : DocxOutcome
  txtRead : TxtOutcome

/-- Exceptions `extract_text_from_file` can propagate. -/
inductive PyError where
  /-- `ValueError("Unsupported file format. ...")` from the final `else`. -/
  | unsupportedFormat
  /-- An exception escaping the unguarded `open`/`read` of the TXT branch. -/
  | txtReadError
  deriving DecidableEq, Repr

/-- `extract_text_from_file` (app.py lines 36-46): dispatch on
`file_path.lower().endswith(...)` over `.pdf`, `.docx`, `.txt`; any other
extension raises `ValueError`. -/
def extract_text_from_file (file_path : String) (env : FileEnv) :
    Except PyError String :=
  if pyEndsWith (pyLower file_path) ".pdf" then
    .ok (extract_text_from_pdf env.pdfRead)
  else if pyEndsWith (pyLower file_path) ".docx" then
    .ok (extract_text_from_docx env.docxRead)
  else if pyEndsWith (pyLower file_path) ".txt" then
    match env.txtRead with
    | .ok s => .ok s
    | .error _ => .error .txtReadError
  else
    .error .unsupportedFormat

/-- Concatenation of the texts of a list of successful page outcomes,
skipping failed ones.  This is also the behaviour the spec describes for
`extract_text_from_pdf` ("concatenated across all pages in order", failures
"do not abort"), used to compare code against spec. -/
def concatOks : List PageOutcome → String
  | [] => ""
  | .ok s :: rest => s ++ concatOks rest
  | .error _ :: rest => concatOks rest

/-- Spec-side description of DOCX extraction: "paragraph texts are
concatenated in document order, each followed by a line break". -/
def specParagraphConcat : List String → String
  | [] => ""
  | p :: rest => p ++ "\n" ++ specParagraphConcat rest

/-! ## Model-backed analysis functions

The remote generative model is abstracted as an oracle `model : String →
String` mapping a prompt to `model.generate_content(prompt).text`.  Each
function below embeds one prompt template of `app.py` (f-string braces
become `++` interpolation; `\x27` is the apostrophe character). -/

/-- `analyze_resume_job_match` (app.py lines 48-71). -/
def analyze_resume_job_match (model : String → String)
    (resume_text job_description : String) : String :=
  model ("\n    You are an expert in resume analysis and career coaching.\n\n    Please analyze the resume against the job description provided and give detailed feedback on:\n\n    1. Match Score (0-100%): How well the candidate\x27s qualifications match the job requirements\n    2. Strengths: Key strengths and qualifications that align well with the job\n    3. Gaps: Skills, experiences, or qualifications mentioned in the job description that are missing or not clearly demonstrated in the resume\n    4. Improvement Suggestions: Specific recommendations for improving the resume to better match this job description\n    5. Keywords: Important keywords from the job description that should be emphasized in the resume\n\n    RESUME:\n    "
    ++ resume_text
    ++ "\n\n    JOB DESCRIPTION:\n    "
    ++ job_description
    ++ "\n\n    Provide your analysis in a structured format with clear headings and actionable feedback.\n    ")

/-- `analyze_skill_gaps_with_resources` (app.py lines 73-90). -/
def analyze_skill_gaps_with_resources (model : String → String)
    (resume_text job_description : String) : String :=
  model ("\n    Analyze the skills mentioned in the job description that are missing from the resume.\n    For each missing skill:\n    1. Identify the skill gap\n    2. Explain its importance for the role\n    3. Suggest specific online courses, certifications, or resources to develop this skill\n    4. Estimate the time investment needed to acquire basic proficiency\n\n    RESUME:\n    "
    ++ resume_text
    ++ "\n\n    JOB DESCRIPTION:\n    "
    ++ job_description
    ++ "\n    ")

/-- `generate_cover_letter` (app.py lines 92-110). -/
def generate_cover_letter (model : String → String)
    (resume_text job_description : String) : String :=
  model ("\n    Create a professional cover letter based on the candidate\x27s resume and the job description.\n    The cover letter should:\n    1. Have a professional greeting and introduction\n    2. Highlight the most relevant experiences and skills from the resume that match the job\n    3. Address any potential concerns or gaps identified in the resume analysis\n    4. Include a compelling closing paragraph\n    5. Maintain a professional but personalized tone\n\n    RESUME:\n    "
    ++ resume_text
    ++ "\n\n    JOB DESCRIPTION:\n    "
    ++ job_description
    ++ "\n    ")

/-- `generate_interview_prep` (app.py lines 112-128). -/
def generate_interview_prep (model : String → String)
    (resume_text job_description : String) : String :=
  model ("\n    Based on this resume and job description, create an interview preparation guide with:\n    1. 10 likely technical questions specific to this role and the candidate\x27s background\n    2. 5 behavioral questions that might probe potential gaps in experience\n    3. Suggested answer frameworks for each question, incorporating the candidate\x27s specific experiences\n    4. 3 questions the candidate should ask the interviewer\n\n    RESUME:\n    "
    ++ resume_text
    ++ "\n\n    JOB DESCRIPTION:\n    "
    ++ job_description
    ++ "\n    ")

/-- `generate_resume_versions` (app.py lines 130-147). -/
def generate_resume_versions (model : String → String)
    (resume_text job_description : String) : String :=
  model ("\n    Create 3 different versions of bullet points for the candidate\x27s most recent roles, each emphasizing different aspects:\n    1. Version focusing on technical skills and achievements\n    2. Version emphasizing leadership and collaboration\n    3. Version highlighting business impact and results\n\n    For each version, rewrite the experience section to best position the candidate for this specific job.\n\n    RESUME:\n    "
    ++ resume_text
    ++ "\n\n    JOB DESCRIPTION:\n    "
    ++ job_description
    ++ "\n    ")

/-- The classification prompt of `get_industry_specific_feedback`
(app.py lines 192-198). -/
def industry_prompt (job_description : String) : String :=
  "\n    Based on this job description, identify the specific industry and role category (e.g., \x27Tech - Software Engineering\x27,\n    \x27Finance - Investment Banking\x27, \x27Healthcare - Nursing\x27). Return only the category name.\n\n    JOB DESCRIPTION:\n    "
  ++ job_description
  ++ "\n    "

/-- Literal text of the feedback prompt before the interpolated industry
label (app.py line 205). -/
def feedbackPromptPre : String :=
  "\n    Provide industry-specific resume feedback for a "

/-- Literal text of the feedback prompt after the interpolated industry
label (app.py lines 205-217). -/
def feedbackPromptPost (resume_text job_description : String) : String :=
  " position.\n    Include:\n    1. Industry-specific conventions and expectations for resumes in this field\n    2. Key certifications or credentials that are valued but missing\n    3. Industry jargon or technical terms that should be included\n    4. Format and presentation norms for this specific industry\n\n    RESUME:\n    "
  ++ resume_text
  ++ "\n\n    JOB DESCRIPTION:\n    "
  ++ job_description
  ++ "\n    "

/-- The second prompt of `get_industry_specific_feedback` (app.py lines
204-217), with the industry label interpolated. -/
def feedback_prompt (industry resume_text job_description : String) : String :=
  feedbackPromptPre ++ industry ++ feedbackPromptPost resume_text job_description

/-- `get_industry_specific_feedback` (app.py lines 190-220): classify the
industry, strip the response (`.strip()`, modelled by `String.trim`), then
request feedback with the label embedded in the second prompt. -/
def get_industry_specific_feedback (model : String → String)
    (resume_text job_description : String) : String :=
  let industry := (model (industry_prompt job_description)).trim
  model (feedback_prompt industry resume_text job_description)

/-- The sequence of prompts `get_industry_specific_feedback` sends to the
model, in call order: the same code path instrumented to record each
`model.generate_content` argument. -/
def get_industry_specific_feedback_prompts (model : String → String)
    (resume_text job_description : String) : List String :=
  let industry := (model (industry_prompt job_description)).trim
  [industry_prompt job_description,
   feedback_prompt industry resume_text job_description]

/-! ## Grammar check (`grammar_check_resume`) -/

/-- Helper for Python `sub in s`: does `sub` occur as a contiguous block of
`s`? -/
def listContains : List Char → List Char → Bool
  | [], sub => sub.isEmpty
  | a :: rest, sub => sub.isPrefixOf (a :: rest) || listContains rest sub

/-- Python `sub in s` on strings: substring containment over the character
sequence. -/
def pyContains (s sub : String) : Bool := listContains s.data sub.data

/-- One entry of the `replacements` array of a match. -/
structure Replacement where
  value : String
  deriving DecidableEq, Repr

/-- The `context` object of a match: `text`, `offset`, `length` (the API
returns non-negative offsets, modelled as `Nat`).  A missing key yields the
`.get` default of the source (0 or the empty string). -/
structure MatchContext where
  text : String
  offset : Nat
  length : Nat
  deriving DecidableEq, Repr

/-- One match object of the LanguageTool response; missing keys are folded
into the `.get` defaults of the source. -/
structure GrammarMatch where
  message : String
  replacements : List Replacement
  context : MatchContext
  deriving DecidableEq, Repr

/-- `sentence[:offset] + "**" + sentence[offset:offset+length] + "**" +
sentence[offset+length:]` (app.py line 174); Python slicing with
non-negative clamped indices is `take`/`drop` on the character list. -/
def highlightSlice (sentence : String) (offset len : Nat) : String :=
  String.mk (sentence.data.take offset) ++ "**"
    ++ String.mk ((sentence.data.drop offset).take len) ++ "**"
    ++ String.mk (sentence.data.drop (offset + len))

/-- The filter of app.py line 170: a match is skipped iff its replacements
list is empty or its lowercased message contains `"whitespace"`. -/
def matchExcluded (m : GrammarMatch) : Bool :=
  m.replacements.isEmpty || pyContains (pyLower m.message) "whitespace"

/-- The formatted issue string built for one surviving match
(app.py lines 173-179). -/
def formatIssue (m : GrammarMatch) : String :=
  let suggestions :=
    String.intercalate ", " (m.replacements.map (fun rep => rep.value))
  let highlighted :=
    highlightSlice m.context.text m.context.offset m.context.length
  "🔹 **Issue:** " ++ m.message ++ "\n🔸 **Line:** " ++ highlighted
    ++ "\n💡 **Suggestion:** " ++ suggestions ++ "\n"

/-- The accumulation loop of app.py lines 160-180: one formatted issue per
non-excluded match, in response order. -/
def grammarIssues (ms : List GrammarMatch) : List String :=
  ms.filterMap
    (fun m => if matchExcluded m then none else some (formatIssue m))

/-- Outcome of the guarded body of `grammar_check_resume`: either the parsed
`matches` array, or any exception raised inside the `try` block
(`requests.post`, `response.json()`, a missing `value` key). -/
inductive GrammarHttp where
  | ok (ms : List GrammarMatch)
  | exn (e : String)
  deriving DecidableEq, Repr

/-- `grammar_check_resume` (app.py lines 149-188): every exception of the
`try` block is converted to an error-message string; otherwise the filtered
matches are formatted into a report. -/
def grammar_check_resume (resume_text : String) (http : GrammarHttp) :
    String :=
  match http with
  | .exn e => "Error checking grammar: " ++ e
  | .ok ms =>
    let issues := grammarIssues ms
    if issues.isEmpty then "No major grammar issues found!"
    else "### Grammar Issues Found:\n\n" ++ String.intercalate "\n" issues

/-! ## Session state machine (`create_streamlit_app`) -/

/-- One chat message: `{"role": ..., "content": ...}`. -/
structure ChatTurn where
  role : String
  content : String
  deriving DecidableEq, Repr

/-- The session-state entries the app reads and writes:
`prev_analysis_type` (`none` models both a missing key and Python `None`,
which compare unequal to every string), `result` and `messages` (`none`
models a popped/missing key). -/
structure SessionState where
  prev_analysis_type : Option String
  result : Option String
  messages : Option (List ChatTurn)
  deriving DecidableEq, Repr

/-- The seven options of the `selectbox` (app.py lines 253-257). -/
def analysis_options : List String :=
  ["Basic Resume Analysis", "Skill Gap Analysis", "Cover Letter Generation",
   "Interview Preparation", "Resume Versions", "Industry-Specific Feedback",
   "Grammar Check on Resume"]

/-- App.py lines 259-263: if the selected kind differs from the stored one,
record it and pop `result` and `messages`. -/
def select_analysis (analysis_type : String) (s : SessionState) :
    SessionState :=
  if s.prev_analysis_type = some analysis_type then s
  else { prev_analysis_type := some analysis_type,
         result := none, messages := none }

/-- The `if`/`elif` chain of app.py lines 267-280 binding `result`: the
`"Grammar Check on Resume"` branch is commented out in the source (lines
279-280), so no branch binds `result` for that kind and the chain yields
nothing. -/
def dispatch_analysis (model : String → String)
    (resume_text job_description analysis_type : String) : Option String :=
  if analysis_type = "Basic Resume Analysis" then
    some (analyze_resume_job_match model resume_text job_description)
  else if analysis_type = "Skill Gap Analysis" then
    some (analyze_skill_gaps_with_resources model resume_text job_description)
  else if analysis_type = "Cover Letter Generation" then
    some (generate_cover_letter model resume_text job_description)
  else if analysis_type = "Interview Preparation" then
    some (generate_interview_prep model resume_text job_description)
  else if analysis_type = "Resume Versions" then
    some (generate_resume_versions model resume_text job_description)
  else if analysis_type = "Industry-Specific Feedback" then
    some (get_industry_specific_feedback model resume_text job_description)
  else
    none

/-- The "Generate Analysis" button body (app.py lines 265-291): when the
chain bound `result`, store it and reset `messages` to `[]`; when it did
not, the read of the unbound local `result` at line 284 raises
`UnboundLocalError`, modelled as `.error ()`. -/
def generate_step (model : String → String)
    (resume_text job_description analysis_type : String) (s : SessionState) :
    Except Unit SessionState :=
  match dispatch_analysis model resume_text job_description analysis_type with
  | none => .error ()
  | some result =>
    .ok { s with result := some result, messages := some ([] : List ChatTurn) }

/-- The follow-up prompt (app.py lines 316-326). -/
def followup_prompt (user_question resume_text job_description : String) :
    String :=
  "\n                Based on the previous resume analysis and the user\x27s question: \""
  ++ user_question
  ++ "\"\n\n                RESUME:\n                "
  ++ resume_text
  ++ "\n\n                JOB DESCRIPTION:\n                "
  ++ job_description
  ++ "\n\n                Provide a helpful, specific response to their question.\n                "

/-- The follow-up-question body (app.py lines 307-335): append the user
turn, send one prompt built from the question, resume and job texts, and
append the assistant turn.  Returns the new transcript paired with the list
of prompts sent to the model during this step, in call order. -/
def handle_followup (model : String → String)
    (resume_text job_description : String)
    (msgs : List ChatTurn) (user_question : String) :
    List ChatTurn × List String :=
  let msgs1 := msgs ++ [{ role := "user", content := user_question }]
  let prompt := followup_prompt user_question resume_text job_description
  let feedback := model prompt
  (msgs1 ++ [{ role := "assistant", content := feedback }], [prompt])

/-! ## Helper lemmas -/

/-- Running the PDF page loop over an all-successful prefix accumulates its
concatenated text and continues with the remainder. -/
theorem pdfLoop_append_all_ok (good : List PageOutcome)
    (h : ∀ p ∈ good, ∃ s, p = Except.ok s) (acc : String)
    (rest : List PageOutcome) :
    pdfLoop (good ++ rest) acc = pdfLoop rest (acc ++ concatOks good) := by
  induction good generalizing acc with
  | nil => simp [concatOks, String.append_empty]
  | cons p good ih =>
    obtain ⟨s, rfl⟩ := h p (List.mem_cons_self p good)
    have hg : ∀ q ∈ good, ∃ s, q = Except.ok s :=
      fun q hq => h q (List.mem_cons_of_mem _ hq)
    show pdfLoop (good ++ rest) (acc ++ s) = _
    rw [ih hg]
    simp only [concatOks, String.append_assoc]

/-- The DOCX fold appends the spec-side paragraph concatenation to its
accumulator. -/
theorem docx_foldl_eq (paras : List String) (acc : String) :
    paras.foldl (fun a p => a ++ p ++ "\n") acc
      = acc ++ specParagraphConcat paras := by
  induction paras generalizing acc with
  | nil => simp [specParagraphConcat, String.append_empty]
  | cons p rest ih =>
    rw [List.foldl_cons, ih]
    simp [specParagraphConcat, String.append_assoc]

/-- `pyContains` decides substring containment of the character sequences. -/
theorem pyContains_iff (s sub : String) :
    pyContains s sub = true ↔ sub.data <:+: s.data := by
  unfold pyContains
  generalize s.data = l
  generalize sub.data = m
  induction l with
  | nil => simp [listContains, List.isEmpty_iff]
  | cons a rest ih =>
    simp [listContains, List.infix_cons_iff, List.isPrefixOf_iff_prefix, ih]

/-- The grammar-issue loop keeps exactly the non-excluded matches, one
formatted issue each, in order. -/
theorem grammarIssues_eq_filter_map (ms : List GrammarMatch) :
    grammarIssues ms
      = (ms.filter (fun m => !matchExcluded m)).map formatIssue := by
  induction ms with
  | nil => rfl
  | cons m rest ih =>
    cases h : matchExcluded m <;>
      simp [grammarIssues, List.filterMap_cons, List.filter_cons, h, ih] <;>
      simp [grammarIssues] at ih <;> exact ih

/-- After `select_analysis`, the stored kind is the selected one. -/
theorem select_analysis_prev (a : String) (s : SessionState) :
    (select_analysis a s).prev_analysis_type = some a := by
  unfold select_analysis
  split
  · assumption
  · rfl

/-! ## Claims -/

/-- Claim C1, counterexample: the claim says `extract_text_from_file` never
raises for a supported extension even when the content is not decodable as
UTF-8, but the TXT branch has no exception handler: at path `"resume.txt"`
in an environment where the UTF-8 read raises, the call raises instead of
returning a string. -/
theorem txt_branch_can_raise :
    extract_text_from_file "resume.txt"
        { pdfRead := Except.ok [], docxRead := Except.ok [],
          txtRead := Except.error () }
      = Except.error PyError.txtReadError := rfl

/-- Claim C1, amended: for a path whose lowercased form ends in `.pdf` the
call returns a string and never raises, likewise for `.docx` (checked after
`.pdf`); for `.txt` (checked after both) the call returns the decoded string
when the UTF-8 read succeeds and propagates the read exception when it does
not. -/
theorem extract_dispatch_behavior (path : String) (env : FileEnv) :
    (pyEndsWith (pyLower path) ".pdf" = true →
      extract_text_from_file path env
        = Except.ok (extract_text_from_pdf env.pdfRead)) ∧
    (pyEndsWith (pyLower path) ".pdf" = false →
      pyEndsWith (pyLower path) ".docx" = true →
      extract_text_from_file path env
        = Except.ok (extract_text_from_docx env.docxRead)) ∧
    (pyEndsWith (pyLower path) ".pdf" = false →
      pyEndsWith (pyLower path) ".docx" = false →
      pyEndsWith (pyLower path) ".txt" = true →
      extract_text_from_file path env
        = env.txtRead.mapError (fun _ => PyError.txtReadError)) := by
  refine ⟨fun h1 => ?_, fun h1 h2 => ?_, fun h1 h2 h3 => ?_⟩
  · simp [extract_text_from_file, h1]
  · simp [extract_text_from_file, h1, h2]
  · cases henv : env.txtRead <;>
      simp [extract_text_from_file, h1, h2, h3, henv, Except.mapError]

/-- Claim C1, witness for the amended theorem at concrete inputs. -/
theorem extract_dispatch_behavior_witness :
    extract_text_from_file "resume.PDF"
        { pdfRead := Except.ok [Except.ok "hi"], docxRead := Except.ok [],
          txtRead := Except.ok "" }
      = Except.ok "hi" ∧
    extract_text_from_file "cv.txt"
        { pdfRead := Except.ok [], docxRead := Except.ok [],
          txtRead := Except.ok "hello" }
      = Except.ok "hello" :=
  ⟨((extract_dispatch_behavior "resume.PDF"
      { pdfRead := Except.ok [Except.ok "hi"], docxRead := Except.ok [],
        txtRead := Except.ok "" }).1 (by decide)).trans rfl,
   ((extract_dispatch_behavior "cv.txt"
      { pdfRead := Except.ok [], docxRead := Except.ok [],
        txtRead := Except.ok "hello" }).2.2 (by decide) (by decide)
        (by decide)).trans rfl⟩

/-- Claim C2: `extract_text_from_file` raises the UnsupportedFormat error
exactly when the lowercased path ends in none of `.pdf`, `.docx`, `.txt`:
the dispatch is exhaustive over exactly these three cases. -/
theorem unsupported_format_iff (path : String) (env : FileEnv) :
    extract_text_from_file path env = Except.error PyError.unsupportedFormat
      ↔ (pyEndsWith (pyLower path) ".pdf" = false ∧
         pyEndsWith (pyLower path) ".docx" = false ∧
         pyEndsWith (pyLower path) ".txt" = false) := by
  unfold extract_text_from_file
  cases h1 : pyEndsWith (pyLower path) ".pdf" <;>
    cases h2 : pyEndsWith (pyLower path) ".docx" <;>
      cases h3 : pyEndsWith (pyLower path) ".txt" <;>
        simp [h1, h2, h3] <;> cases env.txtRead <;> simp

/-- Claim C3, counterexample: the claim says extraction continues past a
failing page; but on a two-page PDF whose first page fails and whose second
page would yield `"B"`, the code returns `""` while the spec-side
description (skip the failure, keep extracting) yields `"B"`. -/
theorem pdf_failure_stops_midway :
    extract_text_from_pdf (Except.ok [Except.error (), Except.ok "B"]) = ""
      ∧ concatOks [Except.error (), Except.ok "B"] = "B" := ⟨rfl, rfl⟩

/-- Claim C3, amended: `extract_text_from_pdf` never raises; when every page
extracts successfully it returns the page texts concatenated in order, and a
failure at some page stops the loop there: the result is the concatenation
of the texts of the pages before the failing one (possibly empty), the pages
after it being skipped. -/
theorem pdf_extraction_prefix (pages good rest : List PageOutcome) :
    ((∀ p ∈ pages, ∃ s, p = Except.ok s) →
      extract_text_from_pdf (Except.ok pages) = concatOks pages) ∧
    ((∀ p ∈ good, ∃ s, p = Except.ok s) →
      extract_text_from_pdf (Except.ok (good ++ Except.error () :: rest))
        = concatOks good) ∧
    extract_text_from_pdf (Except.error ()) = "" := by
  refine ⟨fun h => ?_, fun h => ?_, rfl⟩
  · have := pdfLoop_append_all_ok pages h "" []
    simpa [extract_text_from_pdf, pdfLoop, String.empty_append] using this
  · have := pdfLoop_append_all_ok good h "" (Except.error () :: rest)
    simpa [extract_text_from_pdf, pdfLoop, String.empty_append] using this

/-- Claim C3, witness for the amended theorem at concrete inputs. -/
theorem pdf_extraction_prefix_witness :
    extract_text_from_pdf (Except.ok [Except.ok "A", Except.ok "B"]) = "AB" ∧
    extract_text_from_pdf
        (Except.ok [Except.ok "A", Except.error (), Except.ok "B"]) = "A" := by
  have h := pdf_extraction_prefix [Except.ok "A", Except.ok "B"]
    [Except.ok "A"] [Except.ok "B"]
  refine ⟨(h.1 ?_).trans rfl, (h.2.1 ?_).trans rfl⟩
  · intro p hp
    simp only [List.mem_cons, List.not_mem_nil, or_false] at hp
    rcases hp with rfl | rfl
    · exact ⟨"A", rfl⟩
    · exact ⟨"B", rfl⟩
  · intro p hp
    simp only [List.mem_singleton] at hp
    exact ⟨"A", hp⟩

/-- Claim C9: on a successfully opened DOCX document,
`extract_text_from_docx` returns the paragraph texts concatenated in
document order, each followed by exactly one line break. -/
theorem docx_concat_paragraphs (paras : List String) :
    extract_text_from_docx (Except.ok paras) = specParagraphConcat paras := by
  simpa [extract_text_from_docx, String.empty_append]
    using docx_foldl_eq paras ""

/-- A state whose stored kind differs from the selected one is reset. -/
theorem select_analysis_change (b : String) (t : SessionState)
    (h : ¬ t.prev_analysis_type = some b) :
    select_analysis b t
      = { prev_analysis_type := some b, result := none, messages := none } := by
  unfold select_analysis
  rw [if_neg h]

/-- Claim C4: after generating a result for kind `A` (which stores a result
and resets the transcript), selecting a different kind `B` clears the stored
result and the chat transcript before any further interaction. -/
theorem switch_kind_clears_transcript (model : String → String)
    (resume_text job_description A B : String) (s s1 : SessionState)
    (hAB : A ≠ B)
    (hgen : generate_step model resume_text job_description A
        (select_analysis A s) = Except.ok s1) :
    (select_analysis B s1).messages = none ∧
    (select_analysis B s1).result = none ∧
    (select_analysis B s1).prev_analysis_type = some B := by
  cases hd : dispatch_analysis model resume_text job_description A with
  | none => simp [generate_step, hd] at hgen
  | some res =>
    simp only [generate_step, hd] at hgen
    injection hgen with hgen
    subst hgen
    rw [select_analysis_change B _ (by simp [select_analysis_prev, hAB])]
    exact ⟨rfl, rfl, rfl⟩

/-- Claim C4, witness: a concrete generate-then-switch run. -/
theorem switch_kind_clears_transcript_witness :
    (select_analysis "Skill Gap Analysis"
        { prev_analysis_type := some "Basic Resume Analysis",
          result := some "out", messages := some [] }).messages = none ∧
    (select_analysis "Skill Gap Analysis"
        { prev_analysis_type := some "Basic Resume Analysis",
          result := some "out", messages := some [] }).result = none := by
  have h := switch_kind_clears_transcript (fun _ => "out") "r" "j"
    "Basic Resume Analysis" "Skill Gap Analysis"
    { prev_analysis_type := none, result := none, messages := none }
    { prev_analysis_type := some "Basic Resume Analysis",
      result := some "out", messages := some [] }
    (by decide) rfl
  exact ⟨h.1, h.2.1⟩

/-- Claim C5: `get_industry_specific_feedback` makes exactly two sequential
model calls; the second prompt embeds exactly the response text of the first
call, trimmed of surrounding whitespace and otherwise untransformed, between
the fixed literal parts of the feedback template; the returned result is the
answer of the model to that second prompt. -/
theorem industry_feedback_two_calls (model : String → String)
    (resume_text job_description : String) :
    (get_industry_specific_feedback_prompts model
        resume_text job_description).length = 2 ∧
    get_industry_specific_feedback_prompts model resume_text job_description
      = [industry_prompt job_description,
         feedbackPromptPre
           ++ (model (industry_prompt job_description)).trim
           ++ feedbackPromptPost resume_text job_description] ∧
    get_industry_specific_feedback model resume_text job_description
      = model (feedback_prompt
          ((model (industry_prompt job_description)).trim)
          resume_text job_description) :=
  ⟨rfl, rfl, rfl⟩

/-- Claim C6: a match is excluded from the grammar report iff its
replacements list is empty or its message contains `"whitespace"`
case-insensitively; every other match contributes exactly one formatted
issue, in order. -/
theorem grammar_filter_iff (ms : List GrammarMatch) (m : GrammarMatch) :
    grammarIssues ms
      = (ms.filter (fun x => !matchExcluded x)).map formatIssue ∧
    (matchExcluded m = true ↔
      (m.replacements = []
        ∨ "whitespace".data <:+: (pyLower m.message).data)) := by
  refine ⟨grammarIssues_eq_filter_map ms, ?_⟩
  unfold matchExcluded
  rw [Bool.or_eq_true, pyContains_iff]
  simp [List.isEmpty_iff]

/-- Claim C7: a submitted follow-up question appends a user turn, sends
exactly one model call whose prompt is built from only the question, the
resume text and the job text (prior transcript turns do not influence it),
and appends the assistant reply, preserving transcript order. -/
theorem followup_single_call (model : String → String)
    (resume_text job_description : String)
    (msgs : List ChatTurn) (user_question : String) :
    (handle_followup model resume_text job_description msgs user_question).1
      = msgs ++ [{ role := "user", content := user_question },
                 { role := "assistant",
                   content := model (followup_prompt user_question
                     resume_text job_description) }] ∧
    (handle_followup model resume_text job_description msgs user_question).2
      = [followup_prompt user_question resume_text job_description] ∧
    (handle_followup model resume_text job_description
        msgs user_question).2.length = 1 ∧
    (∀ msgs2 : List ChatTurn,
      (handle_followup model resume_text job_description
          msgs2 user_question).2
        = (handle_followup model resume_text job_description
            msgs user_question).2) := by
  refine ⟨?_, rfl, rfl, fun _ => rfl⟩
  simp [handle_followup]

/-- Claim C8: `grammar_check_resume` never raises: an HTTP or parse failure
yields the textual error message, and a successful call yields either the
no-issues message or the formatted report. -/
theorem grammar_check_total (resume_text e : String)
    (ms : List GrammarMatch) :
    grammar_check_resume resume_text (GrammarHttp.exn e)
      = "Error checking grammar: " ++ e ∧
    (grammar_check_resume resume_text (GrammarHttp.ok ms)
        = "No major grammar issues found!" ∨
      grammar_check_resume resume_text (GrammarHttp.ok ms)
        = "### Grammar Issues Found:\n\n"
            ++ String.intercalate "\n" (grammarIssues ms)) := by
  refine ⟨rfl, ?_⟩
  cases h : (grammarIssues ms).isEmpty
  · right; simp [grammar_check_resume, h]
  · left; simp [grammar_check_resume, h]

/-- Claim C10: the generate dispatch is partial over the seven offered
kinds: for `"Grammar Check on Resume"` no branch binds a result (the branch
is commented out), so triggering generate fails with the unbound-variable
error instead of storing anything, while every one of the six other offered
kinds produces a result. -/
theorem grammar_kind_unbound (model : String → String)
    (resume_text job_description : String) (s : SessionState) :
    dispatch_analysis model resume_text job_description
        "Grammar Check on Resume" = none ∧
    generate_step model resume_text job_description
        "Grammar Check on Resume" s = Except.error () ∧
    "Grammar Check on Resume" ∈ analysis_options ∧
    ((analysis_options.filter
        (fun k => !(k == "Grammar Check on Resume"))).all
      (fun k =>
        (dispatch_analysis model resume_text job_description k).isSome))
      = true := by
  refine ⟨rfl, rfl, ?_, rfl⟩
  simp [analysis_options]

end CareerCompanion
